import Mathlib

/-!
Verification of the question-variation generation, rendering and push engine
of the TeachingTools repository, as a shallow embedding in Lean 4.

Sources embedded:
- TeachingTools/quiz_generation/question.py
  (TableGenerator, QuestionRegistry, Question)
- TeachingTools/lms_interface/canvas_interface.py
  (CanvasCourse.push_quiz_to_canvas, QUESTION_VARIATIONS_TO_TRY)

External collaborators (pypandoc, pytablewriter, the canvasapi client) are
modelled as opaque function parameters or, where a claim speaks about their
output shape, as small Lean functions documented as modelled from the spec.
Machine integers do not occur: the Python code uses unbounded ints; counters
are modelled as Nat.
-/

/-- Output formats, from TeachingTools/quiz_generation/misc.py.
Modelled from the spec: the misc module is not part of the provided sources;
usage in question.py shows exactly two members, CANVAS and LATEX. -/
inductive OutputFormat where
  | CANVAS
  | LATEX
deriving DecidableEq

/-- Python str.join with the empty separator: the empty-string join used for
fingerprints and per-character escaping. -/
def concatAll : List String → String
  | [] => ""
  | x :: xs => x ++ concatAll xs

/-- Python sep.join(parts): joins a list of strings with a separator. -/
def joinWith (sep : String) : List String → String
  | [] => ""
  | [x] => x
  | x :: y :: xs => x ++ sep ++ joinWith sep (y :: xs)

/-- The conv dictionary of TableGenerator.tex_escape (question.py lines 38-51):
the twelve special characters and their replacement strings. -/
def tex_escape_conv (c : Char) : Option String :=
  match c with
  | '&' => some "\\&"
  | '%' => some "\\%"
  | '$' => some "\\$"
  | '#' => some "\\#"
  | '_' => some "\\_"
  | '{' => some "\\\x7b"
  | '}' => some "\\\x7d"
  | '~' => some "\\textasciitilde\x7b\x7d"
  | '^' => some "\\^\x7b\x7d"
  | '\\' => some "\\textbackslash\x7b\x7d"
  | '<' => some "\\textless\x7b\x7d"
  | '>' => some "\\textgreater\x7b\x7d"
  | _ => none

/-- One character of tex_escape output: the replacement from the conv table,
or the character itself. -/
def tex_escape_char (c : Char) : String :=
  match tex_escape_conv c with
  | some r => r
  | none => String.singleton c

/-- TableGenerator.tex_escape (question.py lines 32-53).  The Python code
compiles the regex union of the twelve single-character keys (sorted by
descending length, a no-op for length-1 keys) and applies re.sub, which
replaces each non-overlapping leftmost occurrence; replacement text is never
rescanned.  For an alternation of twelve distinct single characters this is
exactly the per-character substitution below. -/
def TableGenerator.tex_escape (text : String) : String :=
  concatAll (text.data.map tex_escape_char)

/-- TableGenerator (question.py lines 27-30): optional headers and a value
matrix.  Python defaults both fields to None; an absent value_matrix is never
used by generate, so it is modelled as the list itself. -/
structure TableGenerator where
  headers : Option (List String)
  value_matrix : List (List String)

/-- The column specification piece built by the pipe-l repetition
(question.py line 67): the string |l repeated once per column of the first
data row. -/
def latexColSpecPart (n : Nat) : String :=
  concatAll (List.replicate n "|l")

/-- One escaped LaTeX table row (question.py lines 72 and 76): cells joined
by ampersands after tex_escape, with the trailing double backslash. -/
def texRow (row : List String) : String :=
  joinWith " & " (row.map TableGenerator.tex_escape) ++ " \\\\"

/-- The lines of the LaTeX tabular rendering (question.py lines 64-82). -/
def TableGenerator.latexLines (t : TableGenerator) : List String :=
  ["\\begin\x7btabular\x7d\x7b" ++ latexColSpecPart (t.value_matrix.headD []).length ++ "|\x7d",
   "\\toprule"]
  ++ (match t.headers with
      | some hs => [texRow hs, "\\midrule"]
      | none => [])
  ++ t.value_matrix.map texRow
  ++ ["\\bottomrule", "\\end\x7btabular\x7d"]

/-- Modelled from the spec: pytablewriter.HtmlTableWriter is an external
library.  Spec 4.3: the rich-text output is an HTML table with a header row
iff headers are present and one body row per data row, all cells treated as
plain strings.  One rendered row. -/
def htmlRow (tag : String) (row : List String) : String :=
  "<tr>" ++ concatAll (row.map (fun c => "<" ++ tag ++ ">" ++ c ++ "</" ++ tag ++ ">")) ++ "</tr>"

/-- Modelled from the spec: the rows of the HTML table, header row first when
headers are given, then one row per line of the value matrix. -/
def htmlTableRows (headers : Option (List String)) (vm : List (List String)) : List String :=
  (match headers with
   | some hs => [htmlRow "th" hs]
   | none => [])
  ++ vm.map (htmlRow "td")

/-- Modelled from the spec: the dumped HTML table string. -/
def htmlTableWriter (headers : Option (List String)) (vm : List (List String)) : String :=
  "<table>" ++ concatAll (htmlTableRows headers vm) ++ "</table>"

/-- TableGenerator.generate (question.py lines 55-83): HTML writer for the
CANVAS format, the tabular lines joined by newlines for LATEX. -/
def TableGenerator.generate (t : TableGenerator) (output_format : OutputFormat) : String :=
  match output_format with
  | .CANVAS => htmlTableWriter t.headers t.value_matrix
  | .LATEX => joinWith "\n" t.latexLines

/-- The fingerprint computed by CanvasCourse.push_quiz_to_canvas
(canvas_interface.py lines 131-133): the question text concatenated with the
empty-separator join of the stringified answer texts, in order.  The answer
texts are taken here already in string form, as produced by str. -/
def question_fingerprint (question_text : String) (answer_texts : List String) : String :=
  question_text ++ concatAll answer_texts

/-- Python regex whitespace for the backslash-S character class: space, tab,
newline, carriage return, vertical tab, form feed (ASCII range). -/
def pyWhitespace (c : Char) : Bool :=
  c == ' ' || c == '\t' || c == '\n' || c == '\r' || c == '\x0b' || c == '\x0c'

/-- The replacement text of both answer-placeholder substitutions
(question.py lines 173, 266, 278): a LaTeX answer blank of size 3. -/
def answerBlankChars : List Char :=
  "\\answerblank\x7b3\x7d".data

/-- Recognizes the literal prefix of the placeholder pattern: an opening
bracket followed by the word answer; returns the remaining characters. -/
def stripAnswerTag : List Char → Option (List Char)
  | '[' :: 'a' :: 'n' :: 's' :: 'w' :: 'e' :: 'r' :: rest => some rest
  | _ => none

/-- The greedy backtracking step of the regex engine: among the characters of
run (the maximal stretch the repeated character class can consume), the
largest index t with t at least 1 holding a closing bracket.  The repetition
then consumes t characters and the literal closing bracket matches at t. -/
def lastRbracketAux : List Char → Nat → Option Nat → Option Nat
  | [], _, best => best
  | c :: cs, i, best =>
      lastRbracketAux cs (i + 1) (if c = ']' ∧ 1 ≤ i then some i else best)

/-- re.sub for the pattern: opening bracket, the word answer, one or more
characters of the class keep (greedy), closing bracket — replaced by the
answer blank.  Implements the left-to-right non-overlapping scan of
Python re.sub; fuel is at least the length of the character list.  Both
placeholder regexes of question.py arise as instances: keep = not whitespace
for the backslash-S class (line 266/278) and keep = not newline for the dot
class (line 173).  In both classes the closing bracket itself is in the
class, so the repetition can never stop just before an unconsumed closing
bracket; the greedy match therefore ends at the last closing bracket inside
the maximal keep-stretch. -/
def reSubAnswerAux (keep : Char → Bool) : Nat → List Char → List Char
  | 0, _ => []
  | _ + 1, [] => []
  | fuel + 1, c :: cs =>
      match stripAnswerTag (c :: cs) with
      | some tail =>
          match lastRbracketAux (tail.takeWhile keep) 0 none with
          | some t => answerBlankChars ++ reSubAnswerAux keep fuel (tail.drop (t + 1))
          | none => c :: reSubAnswerAux keep fuel cs
      | none => c :: reSubAnswerAux keep fuel cs

/-- re.sub of the placeholder pattern over a string. -/
def reSubAnswer (keep : Char → Bool) (s : String) : String :=
  String.mk (reSubAnswerAux keep s.data.length s.data)

/-- The substitution of question.py lines 266 and 278: placeholder with a
nonempty non-whitespace interior. -/
def subAnswerNonSpace (s : String) : String :=
  reSubAnswer (fun c => !(pyWhitespace c)) s

/-- The substitution of question.py line 173 (get__latex): placeholder with a
nonempty non-newline interior. -/
def subAnswerDot (s : String) : String :=
  reSubAnswer (fun c => c != '\n') s

/-- One item of the body-line sequence handed to the rendering pipeline:
either a markup text line or a TableGenerator block. -/
inductive BodyLine where
  | md (s : String)
  | table (t : TableGenerator)

/-- The pandoc target format string (question.py lines 258 and 272). -/
def pandocTarget : OutputFormat → String
  | .CANVAS => "html"
  | .LATEX => "latex"

/-- One iteration of the accumulation loop of convert_from_lines_to_text
(question.py lines 252-267).  The accumulator carries the flushed parts and
the current markup buffer.  pandoc is the external pypandoc.convert_text
collaborator, modelled as an opaque function of (text, target format). -/
def convertStep (pandoc : String → String → String) (output_format : OutputFormat)
    (acc : List String × String) : BodyLine → List String × String
  | .table t =>
      (acc.1 ++ [pandoc acc.2 (pandocTarget output_format),
                 "\n" ++ t.generate output_format ++ "\n"], "")
  | .md s =>
      let line := match output_format with
        | .LATEX => subAnswerNonSpace s
        | .CANVAS => s
      (acc.1, acc.2 ++ line ++ "\n")

/-- Question.convert_from_lines_to_text (question.py lines 247-279): fold the
lines through the buffer, flush the final buffer through pandoc, join the
parts with newlines, and for the LATEX format apply the placeholder
substitution once more to the joined body. -/
def Question.convert_from_lines_to_text (pandoc : String → String → String)
    (lines : List BodyLine) (output_format : OutputFormat) : String :=
  let acc := lines.foldl (convertStep pandoc output_format) ([], "")
  let body := joinWith "\n" (acc.1 ++ [pandoc acc.2 (pandocTarget output_format)])
  match output_format with
  | .LATEX => subAnswerNonSpace body
  | .CANVAS => body

/-- The Question state (question.py lines 124-169), restricted to the fields
the rendering path reads.  A Lean value of this structure is one
already-instantiated question: the randomized internal state that instantiate
refreshes is captured by the concrete field values, and the body and
explanation line generators are the lines they would return for that state.
points_value is used through str(int(...)) only, so it is modelled as Nat;
spacing is None or a number; answers holds the payload get_answers returns,
opaque here because Answer.get_for_canvas lives in the absent misc module. -/
structure Question where
  name : String
  points_value : Nat
  spacing : Option Nat
  body_lines : List BodyLine
  explanation_lines : List BodyLine
  answers : List (String × String)

/-- Question.get_header (question.py lines 189-199). -/
def Question.get_header (q : Question) (output_format : OutputFormat) : String :=
  match output_format with
  | .LATEX => joinWith "\n"
      ["\\noindent\\begin\x7bminipage\x7d\x7b\\textwidth\x7d",
       "\\question\x7b" ++ toString q.points_value ++ "\x7d",
       "\\noindent\\begin\x7bminipage\x7d\x7b0.9\\textwidth\x7d"]
  | .CANVAS => joinWith "\n" []

/-- Question.get_footer (question.py lines 201-212). -/
def Question.get_footer (q : Question) (output_format : OutputFormat) : String :=
  match output_format with
  | .LATEX => joinWith "\n"
      ((match q.spacing with
        | some n => ["\\vspace\x7b" ++ toString n ++ "cm\x7d"]
        | none => [])
       ++ ["\\end\x7bminipage\x7d", "\\end\x7bminipage\x7d"])
  | .CANVAS => joinWith "\n" []

/-- Question.get_body (question.py lines 281-284). -/
def Question.get_body (pandoc : String → String → String) (q : Question)
    (output_format : OutputFormat) : String :=
  Question.convert_from_lines_to_text pandoc q.body_lines output_format

/-- Question.get_explanation (question.py lines 290-293). -/
def Question.get_explanation (pandoc : String → String → String) (q : Question)
    (output_format : OutputFormat) : String :=
  Question.convert_from_lines_to_text pandoc q.explanation_lines output_format

/-- Question.get_answers (question.py lines 295-297), modelled opaquely: the
flattened canvas payload of the answers the last instantiation produced. -/
def Question.get_answers (q : Question) : List (String × String) :=
  q.answers

/-- Question.generate (question.py lines 306-325) for an instantiated
question.  The explanation starts empty and is rendered (through a final
pandoc-to-html pass) only in the CANVAS branch; the LATEX branch leaves it
empty.  The header and footer surround the body in both formats. -/
def Question.generate (pandoc : String → String → String) (q : Question)
    (output_format : OutputFormat) : String × String × List (String × String) :=
  match output_format with
  | .CANVAS =>
      (q.get_header .CANVAS ++ Question.get_body pandoc q .CANVAS ++ q.get_footer .CANVAS,
       pandoc (Question.get_explanation pandoc q .CANVAS) "html",
       q.get_answers)
  | .LATEX =>
      (q.get_header .LATEX ++ Question.get_body pandoc q .LATEX ++ q.get_footer .LATEX,
       "",
       q.get_answers)

/-- Question.get__latex (question.py lines 171-173): generate for LATEX, keep
only the question text, and substitute the dot-class placeholder pattern. -/
def Question.get__latex (pandoc : String → String → String) (q : Question) : String :=
  subAnswerDot (Question.generate pandoc q .LATEX).1

/-- QUESTION_VARIATIONS_TO_TRY (canvas_interface.py line 38). -/
def QUESTION_VARIATIONS_TO_TRY : Nat := 1000

/-- One question as seen by the push loop: render maps the attempt number to
the rendered (question text, stringified answer texts) pair that the call
question.get__canvas would produce on that iteration — its internal
randomness is modelled as a function of the attempt index — and
possible_variations is the declared ceiling, none modelling the
float infinity default of question.py line 169. -/
structure QuestionGen where
  render : Nat → String × List String
  possible_variations : Option Nat

/-- The mutable state of the push loop of push_quiz_to_canvas: seen is the
all_variations fingerprint set (as an insertion list), accepted is
variation_count, submitted lists the fingerprints of variations actually
pushed by a successful create_question call, and attempts counts loop
iterations entered, i.e. variations generated. -/
structure PushState where
  seen : List String
  accepted : Nat
  submitted : List String
  attempts : Nat
deriving DecidableEq

/-- The post-increment ceiling test of canvas_interface.py line 162:
variation_count at least possible_variations; never true for the
float-infinity default. -/
def reachedPossible (count : Nat) : Option Nat → Bool
  | none => false
  | some k => decide (k ≤ count)

/-- The body of the attempt loop of CanvasCourse.push_quiz_to_canvas
(canvas_interface.py lines 127-163).  Per iteration: render the question,
compute the fingerprint, skip if already seen, otherwise record the
fingerprint; then try the submission — submitOk i says whether
create_question succeeds on iteration i — and on a CanvasException sleep and
continue with the next iteration (the fingerprint stays recorded); on
success increment variation_count and stop once it reaches num_variations or
the declared possible_variations ceiling.  fuel is the number of loop
iterations left out of range(QUESTION_VARIATIONS_TO_TRY); i is the attempt
number. -/
def pushLoopAux (q : QuestionGen) (submitOk : Nat → Bool) (num_variations : Nat) :
    Nat → Nat → PushState → PushState
  | 0, _, s => s
  | fuel + 1, i, s =>
      let fp := question_fingerprint (q.render i).1 (q.render i).2
      if s.seen.contains fp then
        pushLoopAux q submitOk num_variations fuel (i + 1)
          { s with attempts := s.attempts + 1 }
      else if submitOk i then
        let s₂ : PushState :=
          { seen := fp :: s.seen
            accepted := s.accepted + 1
            submitted := fp :: s.submitted
            attempts := s.attempts + 1 }
        if num_variations ≤ s₂.accepted then s₂
        else if reachedPossible s₂.accepted q.possible_variations then s₂
        else pushLoopAux q submitOk num_variations fuel (i + 1) s₂
      else
        pushLoopAux q submitOk num_variations fuel (i + 1)
          { s with seen := fp :: s.seen, attempts := s.attempts + 1 }

/-- The per-question push loop: range(QUESTION_VARIATIONS_TO_TRY) starting
from a fresh variation_count and a possibly non-empty shared fingerprint
set. -/
def pushQuestion (q : QuestionGen) (submitOk : Nat → Bool) (num_variations : Nat)
    (seen : List String) : PushState :=
  pushLoopAux q submitOk num_variations QUESTION_VARIATIONS_TO_TRY 0
    { seen := seen, accepted := 0, submitted := [], attempts := 0 }

/-- The outer loop of push_quiz_to_canvas over the questions of the quiz,
threading the shared all_variations set; returns the accepted count of every
question in order, and the final fingerprint set. -/
def pushQuiz : List (QuestionGen × (Nat → Bool)) → Nat → List String → List Nat × List String
  | [], _, seen => ([], seen)
  | q :: rest, num_variations, seen =>
      let s := pushQuestion q.1 q.2 num_variations seen
      let r := pushQuiz rest num_variations s.seen
      (s.accepted :: r.1, r.2)

/-- A question whose rendering is the same on every attempt: the
deterministic one-variation fixture. -/
def constQuestion : QuestionGen :=
  { render := fun _ => ("Q", ["7"]), possible_variations := none }

/-- The deterministic fixture with a declared ceiling of one variation. -/
def constQuestionCapOne : QuestionGen :=
  { render := fun _ => ("Q", ["7"]), possible_variations := some 1 }

/-- A question with exactly two distinct renderings, declared
possible_variations = 2 (the spec scenario fixture). -/
def twoCycleQuestion : QuestionGen :=
  { render := fun i => if i % 2 = 0 then ("A", []) else ("B", [])
    possible_variations := some 2 }

/-- A question with exactly two distinct renderings and the unbounded
default ceiling. -/
def twoCycleUncapped : QuestionGen :=
  { render := fun i => if i % 2 = 0 then ("A", []) else ("B", [])
    possible_variations := none }

/-- A submission oracle that always succeeds. -/
def alwaysOk : Nat → Bool := fun _ => true

/-- A submission oracle that raises a transient CanvasException on the first
create_question call (iteration 0) and succeeds ever after. -/
def failFirstSubmit : Nat → Bool := fun i => i != 0

/-- One registration argument set for QuestionRegistry.register
(question.py lines 90-98): the optional explicit type name, the class name
fallback, and an abstract constructor identifier. -/
structure RegEntry where
  question_type : Option String
  className : String
  ctor : Nat

/-- Python str.lower restricted to the ASCII range: lowercases every
character of the string.  Defined directly over the character list so that
it evaluates by kernel reduction. -/
def pyLower (s : String) : String :=
  String.mk (s.data.map Char.toLower)

/-- QuestionRegistry.register: binds the lowercased explicit name, or the
lowercased class name when none is given, to the constructor.  Python dict
assignment overwrites, modelled by consing onto an association list read by
first-match lookup. -/
def registerEntry (e : RegEntry) (reg : List (String × Nat)) : List (String × Nat) :=
  (match e.question_type with
   | some s => pyLower s
   | none => pyLower e.className, e.ctor) :: reg

/-- The process-wide state of QuestionRegistry (question.py lines 86-88)
together with the Python import machinery it leans on: registry and scanned
are the two class attributes; imported models the interpreter module cache
(premade modules run their register decorators only on first import);
discovery_runs counts invocations of load_premade_questions. -/
structure RegistryState where
  registry : List (String × Nat)
  scanned : Bool
  imported : Bool
  discovery_runs : Nat
deriving DecidableEq

/-- The fresh per-process state: empty registry, scanned and imported both
false. -/
def initialRegistryState : RegistryState :=
  { registry := [], scanned := false, imported := false, discovery_runs := 0 }

/-- QuestionRegistry.load_premade_questions (question.py lines 113-122):
scans the premade_questions package and imports every module.  On the first
run the imports execute the register decorators, populating the registry; on
later runs the module cache makes each import a no-op, so the registry is
unchanged.  Note that the function does not touch the scanned flag — no code
in the repository ever sets it. -/
def load_premade_questions (premades : List RegEntry) (st : RegistryState) : RegistryState :=
  { st with
    discovery_runs := st.discovery_runs + 1
    imported := true
    registry := if st.imported then st.registry
                else premades.foldl (fun reg e => registerEntry e reg) st.registry }

/-- QuestionRegistry.create (question.py lines 100-110): run discovery when
the scanned flag is unset, then look up the lowercased name, raising the
unknown-question-type ValueError when absent; instantiation of the found
constructor is abstracted to returning its identifier. -/
def QuestionRegistry.create (premades : List RegEntry) (st : RegistryState)
    (question_type : String) : RegistryState × Except String Nat :=
  let st' := if st.scanned then st else load_premade_questions premades st
  match st'.registry.lookup (pyLower question_type) with
  | some c => (st', Except.ok c)
  | none => (st', Except.error ("Unknown question type: " ++ question_type))

/-- The premade package contents used as the registry witness fixture: one
class registered under its own class name. -/
def bitsPremades : List RegEntry :=
  [{ question_type := none, className := "BitsAndBytes", ctor := 7 }]

theorem concatAll_append (l₁ l₂ : List String) :
    concatAll (l₁ ++ l₂) = concatAll l₁ ++ concatAll l₂ := by
  induction l₁ with
  | nil => simp [concatAll]
  | cons x xs ih => simp [concatAll, ih, String.append_assoc]

theorem latexColSpecPart_count (n : Nat) : (latexColSpecPart n).data.count 'l' = n := by
  induction n with
  | zero => decide
  | succ m ih =>
      rw [show latexColSpecPart (m + 1) = "|l" ++ latexColSpecPart m from by
        simp [latexColSpecPart, List.replicate_succ, concatAll]]
      simp [List.count_append, List.count_cons, ih]

theorem pushLoopAux_attempts_le (q : QuestionGen) (so : Nat → Bool) (num : Nat) :
    ∀ fuel i s, (pushLoopAux q so num fuel i s).attempts ≤ s.attempts + fuel := by
  intro fuel
  induction fuel with
  | zero => intro i s; simp [pushLoopAux]
  | succ m ih =>
      intro i s
      simp only [pushLoopAux]
      split
      · exact le_trans (ih (i + 1) _) (by simp; omega)
      · split
        · split
          · show s.attempts + 1 ≤ s.attempts + (m + 1); omega
          · split
            · show s.attempts + 1 ≤ s.attempts + (m + 1); omega
            · exact le_trans (ih (i + 1) _) (by simp; omega)
        · exact le_trans (ih (i + 1) _) (by simp; omega)

theorem pushLoopAux_accepted_le (q : QuestionGen) (so : Nat → Bool) (num k : Nat)
    (hp : q.possible_variations = some k) :
    ∀ fuel i s, s.accepted < num → s.accepted < k →
      (pushLoopAux q so num fuel i s).accepted ≤ min num k := by
  intro fuel
  induction fuel with
  | zero => intro i s h1 h2; simp [pushLoopAux]; omega
  | succ m ih =>
      intro i s h1 h2
      simp only [pushLoopAux]
      split
      · exact ih (i + 1) _ h1 h2
      · split
        · split
          · show s.accepted + 1 ≤ min num k; omega
          · split
            · show s.accepted + 1 ≤ min num k; omega
            · rename_i hnum hposs
              refine ih (i + 1) _ ?_ ?_
              · simp at hnum ⊢; omega
              · simp [reachedPossible, hp] at hposs ⊢; omega
        · exact ih (i + 1) _ h1 h2

theorem pushQuiz_length (qs : List (QuestionGen × (Nat → Bool))) (num : Nat) (seen : List String) :
    (pushQuiz qs num seen).1.length = qs.length := by
  induction qs generalizing seen with
  | nil => simp [pushQuiz]
  | cons q rest ih => simp [pushQuiz, ih]

theorem create_fst (premades : List RegEntry) (st : RegistryState) (n : String) :
    (QuestionRegistry.create premades st n).1
      = if st.scanned then st else load_premade_questions premades st := by
  unfold QuestionRegistry.create
  split
  · cases hl : List.lookup (pyLower n) st.registry <;> simp [hl]
  · cases hl : List.lookup (pyLower n) (load_premade_questions premades st).registry <;> simp [hl]

set_option maxRecDepth 100000 in
/-- Claim C1 (code_bug evidence): in push_quiz_to_canvas the fingerprint is
added to all_variations before create_question runs, and a transient
CanvasException makes the loop continue with the NEXT generation attempt
instead of retrying the same one.  For a deterministic question
(constQuestion, one possible rendering) whose first submission fails
transiently and every later submission would succeed, the loop accepts zero
variations, submits nothing, and leaves the fingerprint of the unsubmitted
variation recorded as seen — while the same question with no transient
failure yields exactly one accepted variation.  The claim (and spec 4.6 and
the spec scenario in section 8) require exactly one accepted variation and
no consumed fingerprint slot. -/
theorem claim_C1_transient_failure_consumes_slot :
    (pushQuestion constQuestion failFirstSubmit 1 []).accepted = 0
    ∧ (pushQuestion constQuestion failFirstSubmit 1 []).submitted = []
    ∧ (pushQuestion constQuestion failFirstSubmit 1 []).seen
        = [question_fingerprint "Q" ["7"]]
    ∧ (pushQuestion constQuestion alwaysOk 1 []).accepted = 1 := by
  refine ⟨?_, ?_, ?_, ?_⟩ <;> decide

/-- Claim C2 counterexample: with the requested per-question count
num_variations = 0 and a question declaring possible_variations = 1, the
loop still accepts one variation, because variation_count is checked against
the ceilings only after being incremented (canvas_interface.py lines
159-163).  So the accepted count exceeds min(num_variations, k) = 0. -/
theorem claim_C2_counterexample :
    constQuestionCapOne.possible_variations = some 1
    ∧ ¬ ((pushQuestion constQuestionCapOne alwaysOk 0 []).accepted ≤ min 0 1) :=
  ⟨rfl, by decide⟩

/-- Claim C2 as amended: for every question with declared
possible_variations = k, every submission oracle, every initial shared
fingerprint set, and every requested count num_variations, PROVIDED both
num_variations and k are at least 1, the number of accepted variations never
exceeds min(num_variations, k). -/
theorem claim_C2_accept_bound (q : QuestionGen) (so : Nat → Bool) (num k : Nat)
    (seen : List String) (hp : q.possible_variations = some k)
    (hnum : 1 ≤ num) (hk : 1 ≤ k) :
    (pushQuestion q so num seen).accepted ≤ min num k :=
  pushLoopAux_accepted_le q so num k hp QUESTION_VARIATIONS_TO_TRY 0 _ hnum hk

/-- Witness for claim C2: the amended bound applied at a concrete input. -/
theorem claim_C2_witness :
    constQuestionCapOne.possible_variations = some 1 ∧ 1 ≤ 1
    ∧ (pushQuestion constQuestionCapOne alwaysOk 1 []).accepted ≤ min 1 1 :=
  ⟨rfl, le_refl 1,
   claim_C2_accept_bound constQuestionCapOne alwaysOk 1 1 [] rfl (le_refl 1) (le_refl 1)⟩

/-- Claim C3: the fingerprint is exactly the rendered question text
concatenated with the stringified answer values in order
(canvas_interface.py lines 131-133), hence a pure function of the rendered
pair: two variations with identical body text and identical answer values
receive the same fingerprint, whatever internal random state produced
them. -/
theorem claim_C3_fingerprint_deterministic (b₁ b₂ : String) (a₁ a₂ : List String)
    (hb : b₁ = b₂) (ha : a₁ = a₂) :
    question_fingerprint b₁ a₁ = question_fingerprint b₂ a₂
    ∧ question_fingerprint b₁ a₁ = b₁ ++ concatAll a₁ := by
  subst hb; subst ha; exact ⟨rfl, rfl⟩

/-- Witness for claim C3 at a concrete rendered variation. -/
theorem claim_C3_witness :
    question_fingerprint "body" ["1", "2"] = question_fingerprint "body" ["1", "2"]
    ∧ question_fingerprint "body" ["1", "2"] = "body" ++ concatAll ["1", "2"] :=
  claim_C3_fingerprint_deterministic "body" "body" ["1", "2"] ["1", "2"] rfl rfl

set_option maxRecDepth 100000 in
/-- Claim C4: the per-question variation loop performs at most
QUESTION_VARIATIONS_TO_TRY = 1000 generation attempts for any question,
submission oracle, requested count and shared fingerprint set; the push
always produces a result for every question of the quiz (soft failure, no
abort); and the spec scenario holds: a question with exactly two distinct
renderings requested with num_variations = 5 yields exactly 2 accepted
variations — both with a declared ceiling of 2 and with the unbounded
default, in which case all 1000 attempts are consumed and the loop still
terminates. -/
theorem claim_C4_attempt_ceiling :
    (∀ (q : QuestionGen) (so : Nat → Bool) (num : Nat) (seen : List String),
        (pushQuestion q so num seen).attempts ≤ QUESTION_VARIATIONS_TO_TRY)
    ∧ (∀ (qs : List (QuestionGen × (Nat → Bool))) (num : Nat) (seen : List String),
        (pushQuiz qs num seen).1.length = qs.length)
    ∧ (pushQuestion twoCycleQuestion alwaysOk 5 []).accepted = 2
    ∧ (pushQuestion twoCycleUncapped alwaysOk 5 []).accepted = 2
    ∧ (pushQuestion twoCycleUncapped alwaysOk 5 []).attempts = QUESTION_VARIATIONS_TO_TRY := by
  refine ⟨fun q so num seen => ?_, pushQuiz_length, by decide, by decide, by decide⟩
  exact le_trans (pushLoopAux_attempts_le q so num QUESTION_VARIATIONS_TO_TRY 0 _) (by simp)

/-- Claim C5: the rendering pipeline treats the answer placeholder
format-dependently.  For a markup line pushed through
convert_from_lines_to_text, the CANVAS branch hands the line to the document
converter verbatim (the placeholder survives as a literal token), while the
LATEX branch substitutes the placeholder pattern before conversion and once
more on the joined body.  The concrete equations show each occurrence of a
well-formed placeholder being replaced by the answer blank of size 3 and a
bracketed token with whitespace inside being left alone. -/
theorem claim_C5_placeholder_format_dependent (pandoc : String → String → String) (s : String) :
    Question.convert_from_lines_to_text pandoc [BodyLine.md s] .CANVAS
      = pandoc (s ++ "\n") "html"
    ∧ Question.convert_from_lines_to_text pandoc [BodyLine.md s] .LATEX
      = subAnswerNonSpace (pandoc (subAnswerNonSpace s ++ "\n") "latex")
    ∧ subAnswerNonSpace "Fill in [answer1] and [answer_two] please"
      = "Fill in \\answerblank\x7b3\x7d and \\answerblank\x7b3\x7d please"
    ∧ subAnswerNonSpace "no placeholder [answer ] here" = "no placeholder [answer ] here" :=
  ⟨rfl, rfl, by decide, by decide⟩

/-- Claim C6: tex_escape is a single left-to-right pass — it distributes over
concatenation, maps each of the twelve special characters to its documented
escape sequence exactly once (the replacement text, including the
backslashes and braces it introduces, is never rescanned), and leaves every
character outside the conv table unchanged. -/
theorem claim_C6_tex_escape_single_pass (a b : String) :
    (TableGenerator.tex_escape (a ++ b)
        = TableGenerator.tex_escape a ++ TableGenerator.tex_escape b)
    ∧ (TableGenerator.tex_escape "&" = "\\&"
       ∧ TableGenerator.tex_escape "%" = "\\%"
       ∧ TableGenerator.tex_escape "$" = "\\$"
       ∧ TableGenerator.tex_escape "#" = "\\#"
       ∧ TableGenerator.tex_escape "_" = "\\_"
       ∧ TableGenerator.tex_escape "\x7b" = "\\\x7b"
       ∧ TableGenerator.tex_escape "\x7d" = "\\\x7d"
       ∧ TableGenerator.tex_escape "~" = "\\textasciitilde\x7b\x7d"
       ∧ TableGenerator.tex_escape "^" = "\\^\x7b\x7d"
       ∧ TableGenerator.tex_escape "\\" = "\\textbackslash\x7b\x7d"
       ∧ TableGenerator.tex_escape "<" = "\\textless\x7b\x7d"
       ∧ TableGenerator.tex_escape ">" = "\\textgreater\x7b\x7d")
    ∧ (∀ c : Char, tex_escape_conv c = none →
        TableGenerator.tex_escape (String.singleton c) = String.singleton c) := by
  refine ⟨?_, by decide, fun c hc => ?_⟩
  · simp [TableGenerator.tex_escape, concatAll_append]
  · simp [TableGenerator.tex_escape, String.singleton, concatAll, tex_escape_char, hc]

/-- Witness for claim C6: the distribution law and the identity on an
ordinary character, at concrete inputs. -/
theorem claim_C6_witness :
    TableGenerator.tex_escape ("a" ++ "&")
      = TableGenerator.tex_escape "a" ++ TableGenerator.tex_escape "&"
    ∧ TableGenerator.tex_escape (String.singleton 'q') = String.singleton 'q' :=
  ⟨(claim_C6_tex_escape_single_pass "a" "&").1,
   (claim_C6_tex_escape_single_pass "a" "&").2.2 'q' rfl⟩

/-- Claim C7: for a non-empty value matrix (first row r, remaining rows rs)
the LATEX rendering of TableGenerator.generate is the newline-join of: the
tabular opener whose column specification carries one l per column of the
data row, then toprule, then — exactly when headers are given — one escaped
header line followed by midrule, then one escaped line per data row (cells
escaped through tex_escape inside texRow), then bottomrule and the tabular
closer; the column-specifier count equals the column count.  The rich-text
rendering has a header row exactly when headers are given plus one body row
per data row.  The concrete 2-header/3-row instance exhibits both shapes
literally. -/
theorem claim_C7_table_generate_shape (hs : List String) (r : List String)
    (rs : List (List String)) :
    (TableGenerator.mk (some hs) (r :: rs)).generate .LATEX
      = joinWith "\n"
          (("\\begin\x7btabular\x7d\x7b" ++ latexColSpecPart r.length ++ "|\x7d")
            :: "\\toprule" :: texRow hs :: "\\midrule"
            :: ((r :: rs).map texRow ++ ["\\bottomrule", "\\end\x7btabular\x7d"]))
    ∧ (TableGenerator.mk none (r :: rs)).generate .LATEX
      = joinWith "\n"
          (("\\begin\x7btabular\x7d\x7b" ++ latexColSpecPart r.length ++ "|\x7d")
            :: "\\toprule"
            :: ((r :: rs).map texRow ++ ["\\bottomrule", "\\end\x7btabular\x7d"]))
    ∧ (latexColSpecPart r.length).data.count 'l' = r.length
    ∧ (htmlTableRows (some hs) (r :: rs)).length = 1 + (r :: rs).length
    ∧ (htmlTableRows none (r :: rs)).length = (r :: rs).length
    ∧ (TableGenerator.mk (some ["A", "B"]) [["1", "2"], ["3", "4"], ["5", "6"]]).generate .LATEX
      = "\\begin\x7btabular\x7d\x7b|l|l|\x7d\n\\toprule\nA & B \\\\\n\\midrule\n1 & 2 \\\\\n3 & 4 \\\\\n5 & 6 \\\\\n\\bottomrule\n\\end\x7btabular\x7d"
    ∧ htmlTableRows (some ["A", "B"]) [["1", "2"], ["3", "4"], ["5", "6"]]
      = [htmlRow "th" ["A", "B"], htmlRow "td" ["1", "2"],
         htmlRow "td" ["3", "4"], htmlRow "td" ["5", "6"]] := by
  refine ⟨rfl, rfl, latexColSpecPart_count r.length, ?_, ?_, by decide, rfl⟩
  · simp [htmlTableRows]; omega
  · simp [htmlTableRows]

/-- Claim C8 (code_bug evidence): the scanned flag of QuestionRegistry is
never set to true by any code in the repository, so the discovery guard in
create passes on every call: after one create from the fresh process state
the flag is still false and load_premade_questions has run once, and a
second create runs it again (discovery_runs = 2), re-scanning the package —
the claim requires at most one discovery pass.  The registry contents are
nevertheless unchanged by the re-run, because the module cache makes the
re-imports no-ops. -/
theorem claim_C8_discovery_reruns_every_create (premades : List RegEntry) (n₁ n₂ : String) :
    ((QuestionRegistry.create premades initialRegistryState n₁).1).scanned = false
    ∧ ((QuestionRegistry.create premades initialRegistryState n₁).1).discovery_runs = 1
    ∧ ((QuestionRegistry.create premades
          ((QuestionRegistry.create premades initialRegistryState n₁).1) n₂).1).discovery_runs = 2
    ∧ ((QuestionRegistry.create premades
          ((QuestionRegistry.create premades initialRegistryState n₁).1) n₂).1).registry
        = ((QuestionRegistry.create premades initialRegistryState n₁).1).registry := by
  simp [create_fst, load_premade_questions, initialRegistryState]

/-- Claim C9: create is case-insensitive — two spellings with the same
lowercasing resolve to the same registered constructor — and it returns the
unknown-question-type error exactly when the lowercased name is absent from
the registry after discovery has been triggered. -/
theorem claim_C9_create_case_insensitive (premades : List RegEntry) (st : RegistryState)
    (n₁ n₂ n : String) (h : pyLower n₁ = pyLower n₂) :
    (∀ c : Nat, (QuestionRegistry.create premades st n₁).2 = Except.ok c ↔
                (QuestionRegistry.create premades st n₂).2 = Except.ok c)
    ∧ ((∃ msg, (QuestionRegistry.create premades st n).2 = Except.error msg) ↔
        (if st.scanned then st
         else load_premade_questions premades st).registry.lookup (pyLower n) = none) := by
  constructor
  · intro c
    simp only [QuestionRegistry.create, h]
    cases hl : List.lookup (pyLower n₂)
        (if st.scanned then st else load_premade_questions premades st).registry <;>
      simp [hl]
  · simp only [QuestionRegistry.create]
    cases hl : List.lookup (pyLower n)
        (if st.scanned then st else load_premade_questions premades st).registry <;>
      simp [hl]

/-- Witness for claim C9: the spec scenario — bitsandbytes in two spellings
resolves identically, and the error condition matches the lookup — at the
concrete premade registry fixture. -/
theorem claim_C9_witness :
    (∀ c : Nat,
        (QuestionRegistry.create bitsPremades initialRegistryState "bitsandbytes").2 = Except.ok c ↔
        (QuestionRegistry.create bitsPremades initialRegistryState "BITSANDBYTES").2 = Except.ok c)
    ∧ ((∃ msg, (QuestionRegistry.create bitsPremades initialRegistryState "bitsandbytes").2
          = Except.error msg) ↔
        (if initialRegistryState.scanned then initialRegistryState
         else load_premade_questions bitsPremades initialRegistryState).registry.lookup
            (pyLower "bitsandbytes") = none) :=
  claim_C9_create_case_insensitive bitsPremades initialRegistryState
    "bitsandbytes" "BITSANDBYTES" "bitsandbytes" (by decide)

/-- Claim C10: for the LATEX output format Question.generate always returns
the empty explanation string — the explanation is rendered (through the
final pandoc pass to html) only for the CANVAS format — and get__latex
returns only the transformed question body text: it is unchanged under any
replacement of the explanation lines and the answers. -/
theorem claim_C10_latex_explanation_empty (pandoc : String → String → String) (q : Question)
    (el : List BodyLine) (ans : List (String × String)) :
    (Question.generate pandoc q .LATEX).2.1 = ""
    ∧ (Question.generate pandoc q .CANVAS).2.1
        = pandoc (Question.get_explanation pandoc q .CANVAS) "html"
    ∧ Question.get__latex pandoc { q with explanation_lines := el, answers := ans }
        = Question.get__latex pandoc q :=
  ⟨rfl, rfl, rfl⟩
